import Mathlib

/-!
A verification development for the TikTok rules engine of this repository:
the rule store, rule matcher and prompt compiler in
`src/services/tiktokRulesService.ts` and the violation reconciler
`recheckScriptViolation` in `src/services/geminiService.ts`.

Embedding conventions:
* JavaScript strings are modelled as `List Char` (`Str` below).
  `String.prototype.toLowerCase` and the regex `i` flag are both modelled by
  mapping `Char.toLower` over the characters (the strings appearing in the
  rules and claims are Thai and ASCII, where this agrees with JS).
* `localStorage` is modelled by an explicit `Store` record holding the two
  persisted values (the rules collection under `tiktok_rules` and the
  metadata under `tiktok_rules_metadata`); `none` means the key is absent.
  JSON (de)serialization of well-formed values is the identity in this model.
* `Date.now()` is modelled by an explicit `now : Nat` parameter; the value
  captured when the module is first evaluated (used for the timestamps of the
  built-in default rules) is the fixed constant `moduleInitTime`.
* The external AI collaborator call inside `recheckScriptViolation` is
  modelled by an explicit outcome value `AICheckOutcome`: the call can throw
  (network error), return a response without text, return text that is not
  valid JSON (`JSON.parse` throws), or return a parsed
  `ViolationCheckResult`.  A thrown JS exception that the code catches is an
  `AICheckOutcome` case; the Lean functions are total, which models that the
  translated code path never lets such an exception escape.
* `JSON.parse` inside `importRules` is abstracted by `ImportParse`: the blob
  either fails to parse, parses to a value for which
  `data.rules && Array.isArray(data.rules)` is false (note a JS array,
  including `[]`, is always truthy, so that condition holds exactly when the
  parsed value has a `rules` property holding an array), or parses to a value
  with a `rules` array, which the code stores as-is.
* The pairing regex `new RegExp` on the pattern `w1.*w2|w2.*w1` with the flag letter i is modelled for words
  without regex metacharacters (none of the rule words in the repository
  contain any): `.` matches every character except the line terminators
  `\n`, `\r`, U+2028 and U+2029, and `test` searches for a match starting at
  any position.
-/

/-- JavaScript strings as lists of characters. -/
abbrev Str := List Char

/-- Model of `String.prototype.toLowerCase()` (and of case folding under the
regex `i` flag): characterwise `Char.toLower`. -/
def lcStr (s : Str) : Str := s.map Char.toLower

/-- Model of JS number-to-string coercion for the naturals used in ids,
counts and template literals. -/
def natToStr (n : Nat) : Str := (Nat.repr n).data

/-- Boolean "w is a leading segment of s", used to search for literal
occurrences of a word. -/
def isPrefixOfB : Str → Str → Bool
  | [], _ => true
  | _ :: _, [] => false
  | a :: as, b :: bs => decide (a = b) && isPrefixOfB as bs

/-- Model of `s.includes(w)` on JS strings: some occurrence of `w` as a
contiguous segment of `s` (always true for `w = ""`). -/
def strIncludes (s w : Str) : Bool :=
  match s with
  | [] => isPrefixOfB w []
  | c :: rest => isPrefixOfB w (c :: rest) || strIncludes rest w

/-- The characters that the regex metacharacter `.` does NOT match in
JavaScript (without the `s` flag): the line terminators. -/
def isLineTerm (c : Char) : Bool :=
  decide (c = '\n') || decide (c = '\r') || decide (c.val = 0x2028) || decide (c.val = 0x2029)

/-- Matching of the regex fragment `.*b` against all of the leading part of
`s`, with the tail after `b` unconstrained: some decomposition
`s = mid ++ b ++ rest` where `mid` contains no line terminator. -/
def matchDotStarThen (b : Str) : Str → Bool
  | [] => isPrefixOfB b []
  | c :: rest => isPrefixOfB b (c :: rest) || (!isLineTerm c && matchDotStarThen b rest)

/-- Matching of the regex `a.*b` anchored at the start of `s`. -/
def matchAt (a b s : Str) : Bool :=
  isPrefixOfB a s && matchDotStarThen b (s.drop a.length)

/-- Unanchored search for the regex `a.*b` in `s`, as performed by
`RegExp.prototype.test`. -/
def matchSeq (a b : Str) : Str → Bool
  | [] => matchAt a b []
  | c :: rest => matchAt a b (c :: rest) || matchSeq a b rest

/-- Model of
testing the dynamically built regex `w1.*w2|w2.*w1` (flag letter i) against `text`, as
from `checkTextViolation` (src/services/tiktokRulesService.ts line 243),
for pairing words free of regex metacharacters. -/
def matchesPairing (text w1 w2 : Str) : Bool :=
  matchSeq (lcStr w1) (lcStr w2) (lcStr text) || matchSeq (lcStr w2) (lcStr w1) (lcStr text)

/-- The closed `RuleCategory` enumeration from src/types.ts. -/
inductive RuleCategory where
  | overclaims
  | medical_supplement
  | forbidden_pairings
  | violence_safety
  | platform_mentions
  | before_after
  | other
deriving DecidableEq

/-- One forbidden word pairing `{ word1, word2 }` from src/types.ts. -/
structure Pairing where
  word1 : Str
  word2 : Str
deriving DecidableEq

/-- The `TikTokRule` record from src/types.ts.  The TS `severity` union type
of "low", "medium", "high", "critical" is not enforced at runtime (imported
data is stored unvalidated), so it is modelled as a string. -/
structure TikTokRule where
  id : Str
  category : RuleCategory
  title : Str
  description : Str
  forbiddenWords : List Str
  forbiddenPairings : List Pairing
  examples : List Str
  severity : Str
  isActive : Bool
  createdAt : Nat
  updatedAt : Nat
deriving DecidableEq

/-- `TikTokRule` without its id and timestamp fields (the TS Omit type), the argument type of
`addRule`. -/
structure NewRule where
  category : RuleCategory
  title : Str
  description : Str
  forbiddenWords : List Str
  forbiddenPairings : List Pairing
  examples : List Str
  severity : Str
  isActive : Bool
deriving DecidableEq

/-- The `RulesMetadata` record from src/types.ts. -/
structure RulesMetadata where
  lastUpdated : Nat
  totalRules : Nat
  activeRules : Nat
  source : Str
  version : Str
deriving DecidableEq

/-- One element of `ViolationCheckResult.violatedRules` from src/types.ts. -/
structure Finding where
  ruleId : Str
  ruleTitle : Str
  violation : Str
  severity : Str
  suggestion : Str
deriving DecidableEq

/-- The `ViolationCheckResult` record from src/types.ts. -/
structure ViolationCheckResult where
  isViolating : Bool
  violatedRules : List Finding
  overallRisk : Nat
  explanation : Str
deriving DecidableEq

/-- The persisted state: the two `localStorage` entries used by
src/services/tiktokRulesService.ts (`tiktok_rules` and
`tiktok_rules_metadata`); `none` models an absent key. -/
structure Store where
  rules : Option (List TikTokRule)
  metadata : Option RulesMetadata
deriving DecidableEq

/-- `Partial<TikTokRule>`, the argument type of `updateRule`: `none` models
a property not named in the partial update object. -/
structure RuleUpdate where
  id : Option Str := none
  category : Option RuleCategory := none
  title : Option Str := none
  description : Option Str := none
  forbiddenWords : Option (List Str) := none
  forbiddenPairings : Option (List Pairing) := none
  examples : Option (List Str) := none
  severity : Option Str := none
  isActive : Option Bool := none
  createdAt : Option Nat := none
  updatedAt : Option Nat := none
deriving DecidableEq

/-- Outcome of the external AI collaborator call inside
`recheckScriptViolation` (src/services/geminiService.ts lines 428-452):
the `generateContent` call throws; or returns a response with no text; or
returns text that `JSON.parse` rejects (throws, caught by the same handler);
or returns text parsing to a `ViolationCheckResult`. -/
inductive AICheckOutcome where
  | networkError
  | emptyResponse
  | malformed
  | parsed (result : ViolationCheckResult)
deriving DecidableEq

/-- Outcome of `JSON.parse(jsonString)` plus the structural check
`data.rules && Array.isArray(data.rules)` inside `importRules`
(src/services/tiktokRulesService.ts lines 422-433).  A JS array (empty
included) is always truthy, so the check passes exactly when the parsed value
carries a `rules` array; that array is stored unvalidated, modelled by the
rule list it denotes. -/
inductive ImportParse where
  | parseError
  | noRulesArray
  | rulesArray (rules : List TikTokRule)
deriving DecidableEq

/-- `Date.now()` as observed when the module is first evaluated (used only
for the timestamps baked into `DEFAULT_RULES`); the concrete value never
influences any behaviour under verification, so it is fixed to 0. -/
def moduleInitTime : Nat := 0

/-- The built-in default rule set `DEFAULT_RULES` from
src/services/tiktokRulesService.ts lines 5-97. -/
def DEFAULT_RULES : List TikTokRule := [
  { id := "rule-001".data
    category := .overclaims
    title := "Overclaims / การกล่าวอ้างเกินจริง".data
    description := "ห้ามกล่าวอ้างสรรพคุณเกินจริงที่ไม่มีหลักฐานทางวิทยาศาสตร์รองรับ".data
    forbiddenWords := ["รักษาได้ทุกโรค".data, "หายขาด".data, "เห็นผล 100%".data, "ขาวใน 3 วัน".data, "ลดน้ำหนัก 10โล ใน 1 สัปดาห์".data, "การันตี".data, "รับรองผล".data]
    forbiddenPairings := []
    examples := ["ครีมนี้รักษาสิวได้หายขาด 100%".data, "ลดน้ำหนักได้ 10 กิโลใน 7 วัน".data]
    severity := "critical".data
    isActive := true
    createdAt := moduleInitTime
    updatedAt := moduleInitTime },
  { id := "rule-002".data
    category := .medical_supplement
    title := "Forbidden Medical Words / คำต้องห้ามทางการแพทย์".data
    description := "ห้ามใช้คำที่เกี่ยวข้องกับการรักษาโรคหรือสรรพคุณทางยา".data
    forbiddenWords := ["รักษา".data, "บรรเทา".data, "แก้โรค".data, "ป้องกันโรค".data, "ยับยั้ง".data, "ฟื้นฟู".data, "ต้านโรค".data, "บำบัด".data, "รักษาโรค".data, "แก้ปัญหาสุขภาพ".data]
    forbiddenPairings := []
    examples := ["อาหารเสริมนี้ช่วยรักษาโรคเบาหวาน".data, "ช่วยป้องกันมะเร็งได้".data]
    severity := "critical".data
    isActive := true
    createdAt := moduleInitTime
    updatedAt := moduleInitTime },
  { id := "rule-003".data
    category := .forbidden_pairings
    title := "Forbidden Word Pairings / คู่คำต้องห้าม".data
    description := "ห้ามใช้คำคู่กันที่อาจสื่อถึงสรรพคุณทางยา".data
    forbiddenWords := []
    forbiddenPairings := [
      ⟨"กระตุ้น".data, "ระบบขับถ่าย".data⟩,
      ⟨"ขจัด".data, "สิ่งอุดตัน".data⟩,
      ⟨"ขจัด".data, "สารพิษ".data⟩,
      ⟨"ลด".data, "ความอ้วน".data⟩,
      ⟨"ลด".data, "ไขมัน".data⟩,
      ⟨"ลด".data, "สิว".data⟩,
      ⟨"ลด".data, "ฝ้า".data⟩,
      ⟨"ลด".data, "กระ".data⟩,
      ⟨"เร่ง".data, "เผาผลาญ".data⟩,
      ⟨"ขาว".data, "ผิว".data⟩,
      ⟨"ขาว".data, "หน้า".data⟩,
      ⟨"ทำให้".data, "ขาว".data⟩]
    examples := ["กระตุ้นระบบขับถ่ายให้ทำงานดี".data, "ช่วยลดไขมันสะสม".data]
    severity := "high".data
    isActive := true
    createdAt := moduleInitTime
    updatedAt := moduleInitTime },
  { id := "rule-004".data
    category := .violence_safety
    title := "Violence & Safety / ความรุนแรงและความปลอดภัย".data
    description := "ห้ามแสดงเนื้อหาเกี่ยวกับความรุนแรง อาวุธ เลือด หรือการกระทำอันตราย".data
    forbiddenWords := ["ฆ่า".data, "แทง".data, "ยิง".data, "ทำร้าย".data, "ทารุณ".data, "กลั่นแกล้ง".data, "รังแก".data, "บูลลี่".data]
    forbiddenPairings := []
    examples := ["แสดงอาวุธปืน".data, "เนื้อหาที่มีเลือดหรือความรุนแรง".data]
    severity := "critical".data
    isActive := true
    createdAt := moduleInitTime
    updatedAt := moduleInitTime },
  { id := "rule-005".data
    category := .platform_mentions
    title := "Platform Mentions / การกล่าวถึงแพลตฟอร์มอื่น".data
    description := "ห้ามกล่าวถึงชื่อแพลตฟอร์มโซเชียลมีเดียอื่นโดยตรง".data
    forbiddenWords := ["Facebook".data, "เฟสบุ๊ค".data, "เฟซบุ๊ก".data, "YouTube".data, "ยูทูป".data, "Line".data, "ไลน์".data, "Instagram".data, "ไอจี".data, "Twitter".data, "ทวิตเตอร์".data]
    forbiddenPairings := []
    examples := ["ติดตามได้ที่ Facebook".data, "กด Subscribe ที่ YouTube".data]
    severity := "medium".data
    isActive := true
    createdAt := moduleInitTime
    updatedAt := moduleInitTime },
  { id := "rule-006".data
    category := .before_after
    title := "Before/After Images / ภาพก่อน-หลัง".data
    description := "จำกัดการใช้ภาพเปรียบเทียบก่อน-หลังสำหรับผลิตภัณฑ์บางประเภท".data
    forbiddenWords := ["ก่อน-หลัง".data, "Before After".data, "Before/After".data]
    forbiddenPairings := []
    examples := ["แสดงภาพผิวก่อนและหลังใช้ผลิตภัณฑ์".data]
    severity := "medium".data
    isActive := true
    createdAt := moduleInitTime
    updatedAt := moduleInitTime }]

/-- `updateMetadata` (src/services/tiktokRulesService.ts lines 129-138):
recomputes the metadata projection from the rule list and persists it. -/
def updateMetadata (rules : List TikTokRule) (now : Nat) (st : Store) : Store :=
  { st with metadata := some (
    { lastUpdated := now
      totalRules := rules.length
      activeRules := (rules.filter (fun r => r.isActive)).length
      source := "Local Database".data
      version := "1.0.0".data : RulesMetadata } ) }

/-- `saveRules` (lines 119-126): replaces the persisted rule collection and
recomputes the metadata. -/
def saveRules (rules : List TikTokRule) (now : Nat) (st : Store) : Store :=
  updateMetadata rules now { st with rules := some rules }

/-- `loadRules` (lines 103-116): returns the stored rules; if the key is
absent it initializes storage with `DEFAULT_RULES` (a persistence write) and
returns them. -/
def loadRules (now : Nat) (st : Store) : List TikTokRule × Store :=
  match st.rules with
  | some rs => (rs, st)
  | none => (DEFAULT_RULES, saveRules DEFAULT_RULES now st)

/-- `addRule` (lines 166-177): assigns the timestamp-derived id
`rule-` followed by `Date.now()`, stamps both timestamps, appends and saves. -/
def addRule (now : Nat) (st : Store) (rule : NewRule) : TikTokRule × Store :=
  let res := loadRules now st
  let newRule : TikTokRule :=
    { id := "rule-".data ++ natToStr now
      category := rule.category
      title := rule.title
      description := rule.description
      forbiddenWords := rule.forbiddenWords
      forbiddenPairings := rule.forbiddenPairings
      examples := rule.examples
      severity := rule.severity
      isActive := rule.isActive
      createdAt := now
      updatedAt := now }
  (newRule, saveRules (res.fst ++ [newRule]) now res.snd)

/-- The object spread in `updateRule` (lines 185-189):
the merge of the partial update into the existing rule, with the trailing
literal property forcing `updatedAt` to the current time (in a JS spread a
later property always wins). -/
def applyUpdate (r : TikTokRule) (u : RuleUpdate) (now : Nat) : TikTokRule :=
  { id := u.id.getD r.id
    category := u.category.getD r.category
    title := u.title.getD r.title
    description := u.description.getD r.description
    forbiddenWords := u.forbiddenWords.getD r.forbiddenWords
    forbiddenPairings := u.forbiddenPairings.getD r.forbiddenPairings
    examples := u.examples.getD r.examples
    severity := u.severity.getD r.severity
    isActive := u.isActive.getD r.isActive
    createdAt := u.createdAt.getD r.createdAt
    updatedAt := now }

/-- The `findIndex` plus in-place assignment of `updateRule`: replace the
first rule whose id matches, returning the updated rule and list, or `none`
when no id matches. -/
def updateFirst (id : Str) (u : RuleUpdate) (now : Nat) : List TikTokRule → Option (TikTokRule × List TikTokRule)
  | [] => none
  | r :: rs =>
    if decide (r.id = id) then
      some (applyUpdate r u now, applyUpdate r u now :: rs)
    else
      match updateFirst id u now rs with
      | none => none
      | some (r2, rs2) => some (r2, r :: rs2)

/-- `updateRule` (lines 180-192): merge a partial update into the rule with
the given id, save, and return it; `none` (the JS null) when the id is
absent. -/
def updateRule (now : Nat) (st : Store) (id : Str) (u : RuleUpdate) : Option TikTokRule × Store :=
  let res := loadRules now st
  match updateFirst id u now res.fst with
  | none => (none, res.snd)
  | some (r2, rules2) => (some r2, saveRules rules2 now res.snd)

/-- `importRules` (lines 422-433): on a blob with a `rules` array, replace
the store wholesale and return true; on a parse failure or a missing
`rules` array, return false leaving the store untouched. -/
def importRules (now : Nat) (st : Store) (p : ImportParse) : Bool × Store :=
  match p with
  | .parseError => (false, st)
  | .noRulesArray => (false, st)
  | .rulesArray rs => (true, saveRules rs now st)

/-- The forbidden-word finding pushed by `checkTextViolation`
(lines 231-237). -/
def mkWordFinding (r : TikTokRule) (w : Str) : Finding :=
  { ruleId := r.id
    ruleTitle := r.title
    violation := "พบคำต้องห้าม: \"".data ++ w ++ "\"".data
    severity := r.severity
    suggestion := "หลีกเลี่ยงการใช้คำว่า \"".data ++ w ++ "\" และใช้คำอื่นแทน".data }

/-- The forbidden-pairing finding pushed by `checkTextViolation`
(lines 245-251). -/
def mkPairingFinding (r : TikTokRule) (p : Pairing) : Finding :=
  { ruleId := r.id
    ruleTitle := r.title
    violation := "พบคู่คำต้องห้าม: \"".data ++ p.word1 ++ "\" + \"".data ++ p.word2 ++ "\"".data
    severity := r.severity
    suggestion := "หลีกเลี่ยงการใช้คำว่า \"".data ++ p.word1 ++ "\" ร่วมกับ \"".data ++ p.word2 ++ "\"".data }

/-- The inner forbidden-words loop of `checkTextViolation` (lines 229-239):
one finding per listed word contained (case-insensitively) in the text, in
list order. -/
def ruleWordFindings (text : Str) (r : TikTokRule) : List Finding :=
  (r.forbiddenWords.filter (fun w => strIncludes (lcStr text) (lcStr w))).map
    (fun w => mkWordFinding r w)

/-- The inner forbidden-pairings loop of `checkTextViolation`
(lines 242-253): one finding per pairing whose regex matches, in list
order. -/
def rulePairingFindings (text : Str) (r : TikTokRule) : List Finding :=
  (r.forbiddenPairings.filter (fun p => matchesPairing text p.word1 p.word2)).map
    (fun p => mkPairingFinding r p)

/-- The outer rule loop of `checkTextViolation` (lines 227-254): for each
rule, the word findings then the pairing findings, accumulated in rule
order. -/
def collectFindings (text : Str) : List TikTokRule → List Finding
  | [] => []
  | r :: rs => (ruleWordFindings text r ++ rulePairingFindings text r) ++ collectFindings text rs

/-- The severity weight lookup with JS default
(`severityScore[v.severity] || 20`, lines 272-281). -/
def severityScore (s : Str) : Nat :=
  if s = "low".data then 10
  else if s = "medium".data then 25
  else if s = "high".data then 40
  else if s = "critical".data then 60
  else 20

/-- The `totalScore` accumulation loop of `calculateRisk` (lines 279-282). -/
def findingsScore (violations : List Finding) : Nat :=
  violations.foldl (fun acc v => acc + severityScore v.severity) 0

/-- `calculateRisk` (lines 269-285): 0 for no findings, otherwise the weight
sum capped at 100. -/
def calculateRisk (violations : List Finding) : Nat :=
  if violations.length = 0 then 0
  else min 100 (findingsScore violations)

/-- The pure evaluation core of `checkTextViolation` (lines 223-266), taking
the loaded rule list as an argument: filter to active rules, collect the
findings, and assemble the result record. -/
def checkTextViolationOn (rules : List TikTokRule) (text : Str) : ViolationCheckResult :=
  let violations := collectFindings text (rules.filter (fun r => r.isActive))
  { isViolating := decide (violations.length > 0)
    violatedRules := violations
    overallRisk := calculateRisk violations
    explanation :=
      if violations.length > 0 then
        "พบการละเมิด ".data ++ natToStr violations.length ++ " รายการ ควรแก้ไขก่อนโพสต์".data
      else
        "ไม่พบการละเมิดกฎ TikTok".data }

/-- `checkTextViolation` (lines 223-266) as called by the application: loads
the rules from storage (possibly initializing it) and evaluates the text. -/
def checkTextViolation (now : Nat) (st : Store) (text : Str) : ViolationCheckResult × Store :=
  let res := loadRules now st
  (checkTextViolationOn res.fst text, res.snd)

/-- `Array.prototype.join` with a separator. -/
def joinStr (sep : Str) : List Str → Str
  | [] => []
  | [x] => x
  | x :: y :: xs => x ++ sep ++ joinStr sep (y :: xs)

/-- The rendering of one pairing inside `buildRulesPrompt` (line 403). -/
def pairingFmt (p : Pairing) : Str :=
  "\"".data ++ p.word1 ++ "\" + \"".data ++ p.word2 ++ "\"".data

/-- The per-rule block of `buildRulesPrompt` (lines 395-407): the numbered
title line, then the optional forbidden-words and forbidden-pairings
lines. -/
def ruleLines (i : Nat) (r : TikTokRule) : Str :=
  natToStr i ++ ". ".data ++ r.title ++ ":\n".data
  ++ (if r.forbiddenWords.length > 0 then
        "   - Forbidden words: ".data ++ joinStr ", ".data r.forbiddenWords ++ "\n".data
      else [])
  ++ (if r.forbiddenPairings.length > 0 then
        "   - Forbidden pairings: ".data ++ joinStr ", ".data (r.forbiddenPairings.map pairingFmt) ++ "\n".data
      else [])

/-- Rendering of the rules of one category group with continuous
numbering. -/
def numberedLines : Nat → List TikTokRule → Str
  | _, [] => []
  | i, r :: rs => ruleLines i r ++ numberedLines (i + 1) rs

/-- Rendering of the category groups in order; an empty group (skipped by
`continue` in the source) contributes nothing and does not advance the
numbering. -/
def numberGroups : Nat → List (List TikTokRule) → Str
  | _, [] => []
  | i, g :: gs => numberedLines i g ++ numberGroups (i + g.length) gs

/-- The fixed key order of the `categories` record literal in
`buildRulesPrompt` (lines 377-385); `Object.entries` yields the keys in this
insertion order. -/
def catOrder : List RuleCategory :=
  [.overclaims, .medical_supplement, .forbidden_pairings, .violence_safety,
   .platform_mentions, .before_after, .other]

/-- The pure core of `buildRulesPrompt` (lines 372-412), taking the loaded
rule list as an argument: group the active rules by category, then emit the
heading and one numbered block per rule. -/
def buildRulesPromptOn (rules : List TikTokRule) : Str :=
  let active := rules.filter (fun r => r.isActive)
  let grouped := catOrder.map (fun c => active.filter (fun r => decide (r.category = c)))
  "TIKTOK POLICY & FORBIDDEN WORDS (STRICT ENFORCEMENT):\n".data ++ numberGroups 1 grouped

/-- `buildRulesPrompt` as called by the application: loads the rules
(possibly initializing storage) and compiles the brief. -/
def buildRulesPrompt (now : Nat) (st : Store) : Str × Store :=
  let res := loadRules now st
  (buildRulesPromptOn res.fst, res.snd)

/-- `recheckScriptViolation` (src/services/geminiService.ts lines 377-453):
run the local check; if it already signals a violation return it at once
(the external collaborator is not consulted); otherwise compile the rule
brief for the prompt and consult the external collaborator, returning the
local result on any failure and the documented merge on success.  The JS
`aiResult.explanation || localCheck.explanation` keeps the external
explanation only when it is a non-empty (truthy) string. -/
def recheckScriptViolation (now : Nat) (st : Store) (scriptText : Str) (ext : AICheckOutcome) :
    ViolationCheckResult × Store :=
  let res := checkTextViolation now st scriptText
  let localCheck := res.fst
  if localCheck.isViolating then res
  else
    let res2 := buildRulesPrompt now res.snd
    match ext with
    | .networkError => (localCheck, res2.snd)
    | .emptyResponse => (localCheck, res2.snd)
    | .malformed => (localCheck, res2.snd)
    | .parsed aiResult =>
      ({ isViolating := localCheck.isViolating || aiResult.isViolating
         violatedRules := localCheck.violatedRules ++ aiResult.violatedRules
         overallRisk := max localCheck.overallRisk aiResult.overallRisk
         explanation :=
           if aiResult.explanation.length = 0 then localCheck.explanation
           else aiResult.explanation }, res2.snd)

/-- The language of the regex `a.*b` searched in `t`: an occurrence of `a`
followed, with only non-line-terminator characters in between, by a
non-overlapping occurrence of `b`. -/
def pairOccursDirected (t a b : Str) : Prop :=
  ∃ pre mid rest, t = pre ++ a ++ mid ++ b ++ rest ∧ ∀ c ∈ mid, isLineTerm c = false

/-- Fixture: the rule of concrete scenario A of the specification (one
critical forbidden word). -/
def ruleA : TikTokRule :=
  { id := "rule-a".data
    category := .medical_supplement
    title := "Forbidden Medical Words".data
    description := "d".data
    forbiddenWords := ["รักษา".data]
    forbiddenPairings := []
    examples := []
    severity := "critical".data
    isActive := true
    createdAt := 0
    updatedAt := 0 }

/-- Fixture: the text of concrete scenario A. -/
def tA : Str := "ครีมนี้รักษาฝ้า".data

/-- Fixture: the rule of concrete scenario B (one high-severity pairing). -/
def ruleB : TikTokRule :=
  { id := "rule-b".data
    category := .forbidden_pairings
    title := "Forbidden Word Pairings".data
    description := "d".data
    forbiddenWords := []
    forbiddenPairings := [⟨"ลด".data, "ไขมัน".data⟩]
    examples := []
    severity := "high".data
    isActive := true
    createdAt := 0
    updatedAt := 0 }

/-- Fixture: the pairing of scenario B. -/
def pB : Pairing := ⟨"ลด".data, "ไขมัน".data⟩

/-- Fixture: the text of concrete scenario B. -/
def tB : Str := "ช่วยลดไขมันสะสม".data

/-- Fixture: an active rule carrying only the pairing (ab, cd). -/
def ruleC1 : TikTokRule :=
  { id := "rule-c1".data
    category := .forbidden_pairings
    title := "Pairings".data
    description := "d".data
    forbiddenWords := []
    forbiddenPairings := [⟨"ab".data, "cd".data⟩]
    examples := []
    severity := "high".data
    isActive := true
    createdAt := 0
    updatedAt := 0 }

/-- Fixture: a text containing both pairing words separated by a newline. -/
def tC1 : Str := "ab\ncd".data

/-- Fixture: a store whose persisted rule collection is the empty list. -/
def stClean : Store := { rules := some [], metadata := none }

/-- Fixture: a store holding exactly the scenario A rule. -/
def stViol : Store := { rules := some [ruleA], metadata := none }

/-- Fixture: an external collaborator verdict used to exercise the merge
path. -/
def extRes : ViolationCheckResult :=
  { isViolating := true, violatedRules := [], overallRisk := 90, explanation := "x".data }

/-- Fixture: an inactive rule with non-empty forbidden content. -/
def ruleOff : TikTokRule :=
  { id := "rule-off".data
    category := .other
    title := "Off".data
    description := "d".data
    forbiddenWords := ["x".data]
    forbiddenPairings := [⟨"a".data, "b".data⟩]
    examples := []
    severity := "critical".data
    isActive := false
    createdAt := 0
    updatedAt := 0 }

/-- Fixture: a stored rule whose creation timestamp is 7. -/
def ruleC8 : TikTokRule :=
  { id := "r1".data
    category := .other
    title := "t".data
    description := "d".data
    forbiddenWords := []
    forbiddenPairings := []
    examples := []
    severity := "low".data
    isActive := true
    createdAt := 7
    updatedAt := 7 }

/-- Fixture: a store holding exactly `ruleC8`. -/
def stC8 : Store := { rules := some [ruleC8], metadata := none }

/-- Fixture: a partial update that names only `createdAt`. -/
def updCreated : RuleUpdate := { createdAt := some 999 }

/-- Fixture: a partial update that names only `title`. -/
def updTitle : RuleUpdate := { title := some ("new".data) }

/-- Fixture: the identity-free rule payload passed to `addRule`. -/
def nrC9 : NewRule :=
  { category := .other
    title := "t".data
    description := "d".data
    forbiddenWords := []
    forbiddenPairings := []
    examples := []
    severity := "low".data
    isActive := true }

/-- Fixture: the rule `addRule` constructs from `nrC9` at clock value
1000. -/
def rC9 : TikTokRule :=
  { id := "rule-1000".data
    category := .other
    title := "t".data
    description := "d".data
    forbiddenWords := []
    forbiddenPairings := []
    examples := []
    severity := "low".data
    isActive := true
    createdAt := 1000
    updatedAt := 1000 }

/-- Fixture: an active rule whose forbidden words contain the empty
string. -/
def ruleC10 : TikTokRule :=
  { id := "rule-c10".data
    category := .other
    title := "Empty".data
    description := "d".data
    forbiddenWords := [[]]
    forbiddenPairings := []
    examples := []
    severity := "low".data
    isActive := true
    createdAt := 0
    updatedAt := 0 }

/-- Fixture: a store holding exactly `ruleC10`. -/
def stC10 : Store := { rules := some [ruleC10], metadata := none }

theorem isPrefixOfB_iff (a : Str) : ∀ s : Str, isPrefixOfB a s = true ↔ ∃ t2, s = a ++ t2 := by
  induction a with
  | nil => intro s; simp [isPrefixOfB]
  | cons x xs ih =>
    intro s
    cases s with
    | nil => simp [isPrefixOfB]
    | cons y ys =>
      simp only [isPrefixOfB, Bool.and_eq_true, decide_eq_true_eq, ih ys, List.cons_append,
        List.cons.injEq]
      constructor
      · rintro ⟨hxy, t2, ht⟩
        exact ⟨t2, hxy.symm, ht⟩
      · rintro ⟨t2, hyx, ht⟩
        exact ⟨hyx.symm, t2, ht⟩

theorem drop_len_append (a : Str) : ∀ t : Str, (a ++ t).drop a.length = t := by
  induction a with
  | nil => intro t; rfl
  | cons x xs ih => intro t; simp [List.cons_append, List.length_cons, List.drop_succ_cons, ih t]

theorem matchDotStarThen_iff (b : Str) :
    ∀ s : Str, matchDotStarThen b s = true ↔
      ∃ mid rest, s = mid ++ b ++ rest ∧ ∀ c ∈ mid, isLineTerm c = false := by
  intro s
  induction s with
  | nil =>
    simp only [matchDotStarThen, isPrefixOfB_iff]
    constructor
    · rintro ⟨t2, ht⟩
      exact ⟨[], t2, by simpa using ht, by simp⟩
    · rintro ⟨mid, rest, h, _⟩
      rcases List.append_eq_nil.mp h.symm with ⟨h1, h2⟩
      rcases List.append_eq_nil.mp h1 with ⟨h3, h4⟩
      exact ⟨rest, by simp [h2, h4]⟩
  | cons c cs ih =>
    simp only [matchDotStarThen, Bool.or_eq_true, Bool.and_eq_true, Bool.not_eq_true',
      isPrefixOfB_iff, ih]
    constructor
    · rintro (⟨t2, ht⟩ | ⟨hc, mid, rest, hcs, hclean⟩)
      · exact ⟨[], t2, by simpa using ht, by simp⟩
      · refine ⟨c :: mid, rest, by simp [hcs], ?_⟩
        intro x hx
        rcases List.mem_cons.mp hx with h | h
        · rw [h]; exact hc
        · exact hclean x h
    · rintro ⟨mid, rest, hs, hclean⟩
      cases mid with
      | nil =>
        left
        exact ⟨rest, by simpa using hs⟩
      | cons m ms =>
        right
        rw [List.cons_append, List.cons_append, List.cons.injEq] at hs
        refine ⟨?_, ms, rest, by simpa using hs.2, ?_⟩
        · rw [hs.1]; exact hclean m (List.mem_cons_self m ms)
        · intro x hx; exact hclean x (List.mem_cons_of_mem m hx)

theorem matchAt_iff (a b s : Str) :
    matchAt a b s = true ↔
      ∃ mid rest, s = a ++ mid ++ b ++ rest ∧ ∀ c ∈ mid, isLineTerm c = false := by
  simp only [matchAt, Bool.and_eq_true, isPrefixOfB_iff]
  constructor
  · rintro ⟨⟨t2, ht⟩, hdot⟩
    rw [ht, drop_len_append] at hdot
    rcases (matchDotStarThen_iff b t2).mp hdot with ⟨mid, rest, h2, hclean⟩
    exact ⟨mid, rest, by simp [ht, h2, List.append_assoc], hclean⟩
  · rintro ⟨mid, rest, hs, hclean⟩
    constructor
    · exact ⟨mid ++ b ++ rest, by simp [hs, List.append_assoc]⟩
    · have hdrop : s.drop a.length = mid ++ b ++ rest := by
        rw [hs]
        have h2 := drop_len_append a (mid ++ b ++ rest)
        simp only [List.append_assoc] at h2 ⊢
        exact h2
      rw [hdrop]
      exact (matchDotStarThen_iff b _).mpr ⟨mid, rest, rfl, hclean⟩

theorem matchSeq_iff (a b : Str) :
    ∀ s : Str, matchSeq a b s = true ↔ pairOccursDirected s a b := by
  intro s
  induction s with
  | nil =>
    simp only [matchSeq, matchAt_iff, pairOccursDirected]
    constructor
    · rintro ⟨mid, rest, hs, hclean⟩
      exact ⟨[], mid, rest, by simpa using hs, hclean⟩
    · rintro ⟨pre, mid, rest, hs, hclean⟩
      have hpre : pre = [] := by
        rcases List.append_eq_nil.mp hs.symm with ⟨h1, _⟩
        rcases List.append_eq_nil.mp h1 with ⟨h2, _⟩
        rcases List.append_eq_nil.mp h2 with ⟨h3, _⟩
        rcases List.append_eq_nil.mp h3 with ⟨h4, _⟩
        exact h4
      exact ⟨mid, rest, by simpa [hpre] using hs, hclean⟩
  | cons c cs ih =>
    simp only [matchSeq, Bool.or_eq_true, matchAt_iff, ih, pairOccursDirected]
    constructor
    · rintro (⟨mid, rest, hs, hclean⟩ | ⟨pre, mid, rest, hs, hclean⟩)
      · exact ⟨[], mid, rest, by simpa using hs, hclean⟩
      · exact ⟨c :: pre, mid, rest, by simp [hs], hclean⟩
    · rintro ⟨pre, mid, rest, hs, hclean⟩
      cases pre with
      | nil =>
        left
        exact ⟨mid, rest, by simpa using hs, hclean⟩
      | cons p ps =>
        right
        rw [List.cons_append, List.cons_append, List.cons_append, List.cons_append,
          List.cons.injEq] at hs
        exact ⟨ps, mid, rest, by simpa [List.append_assoc] using hs.2, hclean⟩

theorem strIncludes_nil (s : Str) : strIncludes s [] = true := by
  cases s with
  | nil => rfl
  | cons c rest => rfl

theorem strIncludes_iff (w : Str) :
    ∀ s : Str, strIncludes s w = true ↔ ∃ pre post, s = pre ++ w ++ post := by
  intro s
  induction s with
  | nil =>
    simp only [strIncludes, isPrefixOfB_iff]
    constructor
    · rintro ⟨t2, ht⟩
      exact ⟨[], t2, by simp [ht]⟩
    · rintro ⟨pre, post, h⟩
      rcases List.append_eq_nil.mp h.symm with ⟨h1, h2⟩
      rcases List.append_eq_nil.mp h1 with ⟨h3, h4⟩
      exact ⟨post, by simp [h2, h4]⟩
  | cons c cs ih =>
    simp only [strIncludes, Bool.or_eq_true, isPrefixOfB_iff, ih]
    constructor
    · rintro (⟨t2, ht⟩ | ⟨pre, post, h⟩)
      · exact ⟨[], t2, by simp [ht]⟩
      · exact ⟨c :: pre, post, by simp [h]⟩
    · rintro ⟨pre, post, h⟩
      cases pre with
      | nil =>
        left
        exact ⟨post, by simpa using h⟩
      | cons p ps =>
        right
        rw [List.cons_append, List.cons_append, List.cons.injEq] at h
        exact ⟨ps, post, h.2⟩

theorem matchesPairing_comm (t w1 w2 : Str) :
    matchesPairing t w1 w2 = matchesPairing t w2 w1 := by
  simp only [matchesPairing]
  exact Bool.or_comm _ _

theorem wordFinding_mem {t : Str} {r : TikTokRule} {w : Str}
    (hw : w ∈ r.forbiddenWords) (hinc : strIncludes (lcStr t) (lcStr w) = true) :
    mkWordFinding r w ∈ ruleWordFindings t r := by
  exact List.mem_map_of_mem _ (List.mem_filter.mpr ⟨hw, hinc⟩)

theorem pairingFinding_mem {t : Str} {r : TikTokRule} {p : Pairing}
    (hp : p ∈ r.forbiddenPairings) (hm : matchesPairing t p.word1 p.word2 = true) :
    mkPairingFinding r p ∈ rulePairingFindings t r := by
  exact List.mem_map_of_mem _ (List.mem_filter.mpr ⟨hp, hm⟩)

theorem mem_collectFindings_of (t : Str) {rules : List TikTokRule} {r : TikTokRule} {f : Finding}
    (hr : r ∈ rules) (hf : f ∈ ruleWordFindings t r ++ rulePairingFindings t r) :
    f ∈ collectFindings t rules := by
  induction rules with
  | nil => cases hr
  | cons x xs ih =>
    rcases List.mem_cons.mp hr with h | h
    · subst h
      exact List.mem_append_left _ hf
    · exact List.mem_append_right _ (ih h)

theorem checkOn_violatedRules (rules : List TikTokRule) (t : Str) :
    (checkTextViolationOn rules t).violatedRules
      = collectFindings t (rules.filter (fun r => r.isActive)) := rfl

theorem checkOn_overallRisk (rules : List TikTokRule) (t : Str) :
    (checkTextViolationOn rules t).overallRisk
      = calculateRisk (collectFindings t (rules.filter (fun r => r.isActive))) := rfl

theorem isViolating_of_mem {rules : List TikTokRule} {t : Str} {f : Finding}
    (hf : f ∈ (checkTextViolationOn rules t).violatedRules) :
    (checkTextViolationOn rules t).isViolating = true := by
  have hne : (checkTextViolationOn rules t).violatedRules ≠ [] := List.ne_nil_of_mem hf
  have hpos : 0 < (collectFindings t (rules.filter (fun r => r.isActive))).length := by
    rw [← checkOn_violatedRules]
    exact List.length_pos.mpr hne
  show decide ((collectFindings t (rules.filter (fun r => r.isActive))).length > 0) = true
  exact decide_eq_true hpos

theorem calculateRisk_eq_min (v : List Finding) :
    calculateRisk v = min 100 (findingsScore v) := by
  unfold calculateRisk
  split
  · rename_i h
    have hv : v = [] := List.length_eq_zero.mp h
    subst hv
    rfl
  · rfl

theorem findingsScore_singleton (f : Finding) :
    findingsScore [f] = severityScore f.severity := by
  simp [findingsScore]

theorem filter_mid_inactive (rs1 rs2 : List TikTokRule) {r : TikTokRule}
    (h : r.isActive = false) :
    (rs1 ++ r :: rs2).filter (fun x => x.isActive)
      = (rs1 ++ rs2).filter (fun x => x.isActive) := by
  simp [List.filter_append, List.filter_cons, h]

theorem updateFirst_append (id : Str) (u : RuleUpdate) (now : Nat) :
    ∀ (pre : List TikTokRule) (r0 : TikTokRule) (post : List TikTokRule),
      (∀ r ∈ pre, ¬(r.id = id)) → r0.id = id →
      updateFirst id u now (pre ++ r0 :: post)
        = some (applyUpdate r0 u now, pre ++ applyUpdate r0 u now :: post) := by
  intro pre
  induction pre with
  | nil =>
    intro r0 post _ hid
    simp [updateFirst, hid]
  | cons x xs ih =>
    intro r0 post hpre hid
    have hx : ¬(x.id = id) := hpre x (List.mem_cons_self x xs)
    simp [updateFirst, hx, ih r0 post (fun r hr => hpre r (List.mem_cons_of_mem x hr)) hid]

/-- Claim C1, counterexample: the pairing (ab, cd) of the active rule
`ruleC1`, and the text consisting of ab, a newline, then cd.  Both pairing
words occur in the text case-insensitively, yet `checkTextViolation` emits
no finding, because the `.` of the dynamically built regex does not match a
newline; so the claimed equivalence with plain co-occurrence fails. -/
theorem c1_counterexample :
    strIncludes (lcStr tC1) (lcStr ("ab".data)) = true
    ∧ strIncludes (lcStr tC1) (lcStr ("cd".data)) = true
    ∧ (checkTextViolationOn [ruleC1] tC1).violatedRules = []
    ∧ (checkTextViolationOn [ruleC1] tC1).isViolating = false := by decide

/-- Claim C1, amended: for every text, active rule and pairing of that rule,
the emission test of `checkTextViolation` is symmetric in the two words
(order independence holds as claimed), and it succeeds exactly when the
lowercased text contains an occurrence of one word followed — with only
non-line-terminator characters in between — by a non-overlapping occurrence
of the other, in either order (rather than on mere co-occurrence); when the
test succeeds the pairing finding is emitted. -/
theorem c1_amended (rules : List TikTokRule) (t : Str) (r : TikTokRule) (p : Pairing)
    (hr : r ∈ rules) (ha : r.isActive = true) (hp : p ∈ r.forbiddenPairings) :
    matchesPairing t p.word1 p.word2 = matchesPairing t p.word2 p.word1
    ∧ (matchesPairing t p.word1 p.word2 = true ↔
        pairOccursDirected (lcStr t) (lcStr p.word1) (lcStr p.word2)
        ∨ pairOccursDirected (lcStr t) (lcStr p.word2) (lcStr p.word1))
    ∧ (matchesPairing t p.word1 p.word2 = true →
        mkPairingFinding r p ∈ (checkTextViolationOn rules t).violatedRules) := by
  refine ⟨matchesPairing_comm t p.word1 p.word2, ?_, ?_⟩
  · simp only [matchesPairing, Bool.or_eq_true, matchSeq_iff]
  · intro hm
    rw [checkOn_violatedRules]
    have hract : r ∈ rules.filter (fun x => x.isActive) :=
      List.mem_filter.mpr ⟨hr, ha⟩
    exact mem_collectFindings_of t hract
      (List.mem_append_right _ (pairingFinding_mem hp hm))

/-- Witness for the amended claim C1, at concrete scenario B of the
specification: the pairing rule and the text containing both words in
order. -/
theorem c1_amended_witness :
    mkPairingFinding ruleB pB ∈ (checkTextViolationOn [ruleB] tB).violatedRules :=
  (c1_amended [ruleB] tB ruleB pB (by decide) (by decide) (by decide)).2.2 (by decide)

/-- Claim C2: the overall risk returned by the matcher is the severity
weight sum of the emitted findings (low 10, medium 25, high 40, critical 60,
default 20) capped at 100; it is 0 for zero findings, and 60 for a single
critical finding. -/
theorem c2_risk (rules : List TikTokRule) (t : Str) :
    (checkTextViolationOn rules t).overallRisk
      = min 100 (findingsScore (checkTextViolationOn rules t).violatedRules)
    ∧ ((checkTextViolationOn rules t).violatedRules = []
        → (checkTextViolationOn rules t).overallRisk = 0)
    ∧ (∀ f : Finding, (checkTextViolationOn rules t).violatedRules = [f]
        → f.severity = "critical".data
        → (checkTextViolationOn rules t).overallRisk = 60) := by
  have hrisk : (checkTextViolationOn rules t).overallRisk
      = calculateRisk (checkTextViolationOn rules t).violatedRules := rfl
  refine ⟨?_, ?_, ?_⟩
  · rw [hrisk, calculateRisk_eq_min]
  · intro he
    rw [hrisk, he]
    rfl
  · intro f he hc
    rw [hrisk, he, calculateRisk_eq_min, findingsScore_singleton, hc]
    decide

/-- Witness for claim C2, at concrete scenario A of the specification: one
critical forbidden-word finding gives overall risk 60. -/
theorem c2_risk_witness : (checkTextViolationOn [ruleA] tA).overallRisk = 60 :=
  (c2_risk [ruleA] tA).2.2 (mkWordFinding ruleA ("รักษา".data)) (by decide) (by decide)

/-- Claim C3: when the local check is clean and the external collaborator
call fails in any way (the call throws, the response has no text, or its
text is not valid JSON), the reconciler returns the local result; the
failure cases are explicit values of a total function, so no failure is
propagated to the caller. -/
theorem c3_fallback (now : Nat) (st : Store) (t : Str) (ext : AICheckOutcome)
    (hclean : (checkTextViolation now st t).fst.isViolating = false)
    (hfail : ext = AICheckOutcome.networkError ∨ ext = AICheckOutcome.emptyResponse
      ∨ ext = AICheckOutcome.malformed) :
    (recheckScriptViolation now st t ext).fst = (checkTextViolation now st t).fst := by
  rcases hfail with h | h | h <;> subst h <;> simp [recheckScriptViolation, hclean]

/-- Witness for claim C3: a store with no rules, a clean text, and a thrown
external call. -/
theorem c3_fallback_witness :
    (recheckScriptViolation 0 stClean ("hi".data) AICheckOutcome.networkError).fst
      = (checkTextViolation 0 stClean ("hi".data)).fst :=
  c3_fallback 0 stClean ("hi".data) AICheckOutcome.networkError (by decide) (Or.inl rfl)

/-- Claim C4: when the local check already signals a violation, the
reconciler returns exactly the local result, and its output does not depend
on the external collaborator outcome at all (the external check is never
consulted on this path). -/
theorem c4_local_priority (now : Nat) (st : Store) (t : Str) (ext ext2 : AICheckOutcome)
    (hviol : (checkTextViolation now st t).fst.isViolating = true) :
    recheckScriptViolation now st t ext = checkTextViolation now st t
    ∧ recheckScriptViolation now st t ext = recheckScriptViolation now st t ext2 := by
  constructor
  · simp [recheckScriptViolation, hviol]
  · simp [recheckScriptViolation, hviol]

/-- Witness for claim C4: the scenario A rule and text (a local violation),
compared across a failing and a succeeding external outcome. -/
theorem c4_local_priority_witness :
    recheckScriptViolation 0 stViol tA AICheckOutcome.networkError
      = checkTextViolation 0 stViol tA
    ∧ recheckScriptViolation 0 stViol tA AICheckOutcome.networkError
      = recheckScriptViolation 0 stViol tA (AICheckOutcome.parsed extRes) :=
  c4_local_priority 0 stViol tA AICheckOutcome.networkError
    (AICheckOutcome.parsed extRes) (by decide)

/-- Claim C5, counterexample: on a store whose rules key is absent, a single
evaluation of `checkTextViolation` changes the persisted state (it
initializes storage with the default rules and writes fresh metadata), so
the no-persistence-side-effects part of the claim fails. -/
theorem c5_counterexample :
    (checkTextViolation 0 (Store.mk none none) ("hi".data)).snd ≠ Store.mk none none := by
  decide

/-- Claim C5, amended: `checkTextViolation` is deterministic — its result is
a function of the stored rule collection and the text only, independent of
the clock — and, provided a rule collection is already stored, it performs
no persistence side effect (the stored rules and metadata are unchanged);
on an uninitialized store the evaluation initializes storage with the
built-in defaults. -/
theorem c5_amended (now now2 : Nat) (st : Store) (rs : List TikTokRule) (t : Str)
    (h : st.rules = some rs) :
    (checkTextViolation now st t).fst = checkTextViolationOn rs t
    ∧ (checkTextViolation now st t).fst = (checkTextViolation now2 st t).fst
    ∧ (checkTextViolation now st t).snd = st := by
  unfold checkTextViolation loadRules
  rw [h]
  exact ⟨rfl, rfl, rfl⟩

/-- Witness for the amended claim C5: a store already holding the scenario A
rule, evaluated at two different clock values. -/
theorem c5_amended_witness :
    (checkTextViolation 1 stViol tA).fst = checkTextViolationOn [ruleA] tA
    ∧ (checkTextViolation 1 stViol tA).fst = (checkTextViolation 2 stViol tA).fst
    ∧ (checkTextViolation 1 stViol tA).snd = stViol :=
  c5_amended 1 2 stViol [ruleA] tA rfl

/-- Claim C6: a rule with isActive false never influences output — inserting
it anywhere into the rule list changes neither the result of the matcher nor
the compiled prompt brief, whatever its forbidden words and pairings are. -/
theorem c6_inactive (rs1 rs2 : List TikTokRule) (r : TikTokRule) (t : Str)
    (h : r.isActive = false) :
    checkTextViolationOn (rs1 ++ r :: rs2) t = checkTextViolationOn (rs1 ++ rs2) t
    ∧ buildRulesPromptOn (rs1 ++ r :: rs2) = buildRulesPromptOn (rs1 ++ rs2) := by
  have hf := filter_mid_inactive rs1 rs2 h
  constructor
  · unfold checkTextViolationOn
    rw [hf]
  · unfold buildRulesPromptOn
    rw [hf]

/-- Witness for claim C6: the inactive rule `ruleOff`, inserted into the
empty rule list. -/
theorem c6_inactive_witness :
    checkTextViolationOn ([] ++ ruleOff :: []) ("x".data) = checkTextViolationOn ([] ++ []) ("x".data)
    ∧ buildRulesPromptOn ([] ++ ruleOff :: []) = buildRulesPromptOn ([] ++ []) :=
  c6_inactive [] [] ruleOff ("x".data) rfl

/-- Claim C7: `importRules` returns true and replaces the store wholesale
(with recomputed metadata) exactly when the blob parses with a rules array;
on a parse failure or a missing rules array it returns false and the store —
rules and metadata both — is left unmodified. -/
theorem c7_import (now : Nat) (st : Store) (p : ImportParse) :
    ((importRules now st p).fst = true ↔ ∃ rs, p = ImportParse.rulesArray rs)
    ∧ (∀ rs, p = ImportParse.rulesArray rs → (importRules now st p).snd = saveRules rs now st)
    ∧ ((importRules now st p).fst = false → (importRules now st p).snd = st) := by
  cases p <;> simp [importRules]

/-- Witness for claim C7: a blob that fails to parse leaves a concrete store
untouched. -/
theorem c7_import_witness :
    (importRules 3 stClean ImportParse.parseError).snd = stClean :=
  (c7_import 3 stClean ImportParse.parseError).2.2 rfl

/-- Claim C8, counterexample: a partial update that itself names `createdAt`
overwrites the creation timestamp — the stored rule was created at 7, yet
after `updateRule` with the partial field set containing createdAt 999, the
returned rule has createdAt 999. -/
theorem c8_counterexample :
    stC8.rules = some [ruleC8]
    ∧ ruleC8.createdAt = 7
    ∧ (updateRule 50 stC8 ("r1".data) updCreated).fst.map (fun r => r.createdAt)
        = some 999 := by decide

/-- Claim C8, amended: for the first stored rule matching the id and any
partial field set `u`, `updateRule` returns the merged rule, whose
`updatedAt` is the current time, whose fields not named in `u` are
unchanged, and whose `createdAt` equals the original creation timestamp
provided `u` does not itself name `createdAt` (the code lets a partial
update containing `createdAt` overwrite it). -/
theorem c8_amended (now : Nat) (st : Store) (id : Str) (u : RuleUpdate)
    (pre post : List TikTokRule) (r0 : TikTokRule)
    (hst : st.rules = some (pre ++ r0 :: post))
    (hpre : ∀ r ∈ pre, ¬(r.id = id)) (hid : r0.id = id) :
    (updateRule now st id u).fst = some (applyUpdate r0 u now)
    ∧ (applyUpdate r0 u now).updatedAt = now
    ∧ (u.createdAt = none → (applyUpdate r0 u now).createdAt = r0.createdAt)
    ∧ (u.id = none → (applyUpdate r0 u now).id = r0.id)
    ∧ (u.category = none → (applyUpdate r0 u now).category = r0.category)
    ∧ (u.title = none → (applyUpdate r0 u now).title = r0.title)
    ∧ (u.description = none → (applyUpdate r0 u now).description = r0.description)
    ∧ (u.forbiddenWords = none → (applyUpdate r0 u now).forbiddenWords = r0.forbiddenWords)
    ∧ (u.forbiddenPairings = none → (applyUpdate r0 u now).forbiddenPairings = r0.forbiddenPairings)
    ∧ (u.examples = none → (applyUpdate r0 u now).examples = r0.examples)
    ∧ (u.severity = none → (applyUpdate r0 u now).severity = r0.severity)
    ∧ (u.isActive = none → (applyUpdate r0 u now).isActive = r0.isActive) := by
  refine ⟨?_, rfl, ?_, ?_, ?_, ?_, ?_, ?_, ?_, ?_, ?_, ?_⟩
  · unfold updateRule loadRules
    rw [hst]
    simp [updateFirst_append id u now pre r0 post hpre hid]
  all_goals intro h
  all_goals simp [applyUpdate, h]

/-- Witness for the amended claim C8: the stored rule `ruleC8` updated with
a partial field set naming only the title. -/
theorem c8_amended_witness :
    (updateRule 50 stC8 ("r1".data) updTitle).fst = some (applyUpdate ruleC8 updTitle 50)
    ∧ (applyUpdate ruleC8 updTitle 50).createdAt = ruleC8.createdAt := by
  have h := c8_amended 50 stC8 ("r1".data) updTitle [] [] ruleC8 rfl (by simp) rfl
  exact ⟨h.1, h.2.2.1 rfl⟩

/-- Claim C9 (a code bug): two sequential `addRule` calls that observe the
same clock millisecond are both assigned the id rule-1000, so the ids
coincide and the store ends up holding two identical rules with duplicate
ids, violating the uniqueness the claim asserts. -/
theorem c9_bug :
    (addRule 1000 (addRule 1000 stClean nrC9).snd nrC9).fst.id
      = (addRule 1000 stClean nrC9).fst.id
    ∧ (addRule 1000 (addRule 1000 stClean nrC9).snd nrC9).snd.rules
      = some [rC9, rC9] := by decide

/-- Claim C10: if any active stored rule lists the empty string among its
forbidden words, then every text — the empty text included — yields at least
one forbidden-word finding for that rule and an overall violation verdict,
since substring containment of the empty word always holds. -/
theorem c10_empty_word (now : Nat) (st : Store) (rules : List TikTokRule)
    (r : TikTokRule) (t : Str)
    (hst : st.rules = some rules) (hr : r ∈ rules) (ha : r.isActive = true)
    (hw : ([] : Str) ∈ r.forbiddenWords) :
    (checkTextViolation now st t).fst.isViolating = true
    ∧ mkWordFinding r [] ∈ (checkTextViolation now st t).fst.violatedRules := by
  have hfst : (checkTextViolation now st t).fst = checkTextViolationOn rules t := by
    unfold checkTextViolation loadRules
    rw [hst]
  rw [hfst]
  have hmem : mkWordFinding r [] ∈ (checkTextViolationOn rules t).violatedRules := by
    rw [checkOn_violatedRules]
    have hract : r ∈ rules.filter (fun x => x.isActive) := List.mem_filter.mpr ⟨hr, ha⟩
    refine mem_collectFindings_of t hract (List.mem_append_left _ ?_)
    exact wordFinding_mem hw (strIncludes_nil (lcStr t))
  exact ⟨isViolating_of_mem hmem, hmem⟩

/-- Witness for claim C10: a stored active rule whose forbidden words
contain the empty string, evaluated on the empty text. -/
theorem c10_empty_word_witness :
    (checkTextViolation 0 stC10 []).fst.isViolating = true
    ∧ mkWordFinding ruleC10 [] ∈ (checkTextViolation 0 stC10 []).fst.violatedRules :=
  c10_empty_word 0 stC10 [ruleC10] ruleC10 [] rfl (by decide) rfl (by decide)
